import Mathlib

/-!
Shallow embedding of the TodoApp state/store logic of
src/simple-app/script.js, together with theorems settling the spec
claims about it.

The DOM/render layer is out of scope; the embedding covers the data
model (Task, the tasks list, the active filter, the persisted blob
under the key "todoTasks") and the store operations: the constructor
read (line 3), addTask (lines 41-66), toggleTask (lines 68-75),
deleteTask (lines 77-81), the clear-completed keyboard handler
(lines 161-168), the filter-button handler (line 34, setFilter),
getFilteredTasks (lines 83-92), the counts of updateStats
(lines 94-100) and saveToLocalStorage (lines 136-138).

Environment inputs that the code reads from the platform - the value
of Date.now(), the current locale time string, and the value typed in
the input field - are passed as explicit arguments.
-/

namespace SimpleApp

/-- A JavaScript value as producible by JSON.parse: the persisted blob
is one of these after parsing. Numbers are integers here; no claim
needs fractional values. -/
inductive JSValue where
  | null
  | bool (b : Bool)
  | num (n : Int)
  | str (s : String)
  | arr (elems : List JSValue)
  | obj (fields : List (String × JSValue))

/-- JavaScript truthiness of a JSValue, as used by the || operator on
line 3. Every array and every object is truthy, including [] and \x7b\x7d. -/
def truthy : JSValue → Bool
  | .null => false
  | .bool b => b
  | .num n => n != 0
  | .str s => s != ""
  | .arr _ => true
  | .obj _ => true

/-- JavaScript a || b : the left operand if truthy, otherwise the right. -/
def jsOr (a b : JSValue) : JSValue :=
  if truthy a then a else b

/-- A task object as built by addTask on lines 49-54. -/
structure Task where
  id : String
  text : String
  completed : Bool
  createdAt : String
deriving DecidableEq, Repr

/-- The store state of the TodoApp class: the tasks list, the active
filter (this.currentFilter, a string), and the "todoTasks" slot of
localStorage, kept at the parsed-JSON level (none = key absent). -/
structure TodoApp where
  tasks : List Task
  currentFilter : String
  storage : Option JSValue

/-- Serialization of one task, as JSON.stringify renders the object
literal of lines 49-54 (field order is insertion order). -/
def taskToJS (t : Task) : JSValue :=
  .obj [("id", .str t.id), ("text", .str t.text),
        ("completed", .bool t.completed), ("createdAt", .str t.createdAt)]

/-- Serialization of the whole list, as JSON.stringify(this.tasks). -/
def tasksToJS (ts : List Task) : JSValue :=
  .arr (ts.map taskToJS)

/-- saveToLocalStorage (lines 136-138): rewrite the "todoTasks" slot
with the serialized full list. -/
def saveToLocalStorage (app : TodoApp) : TodoApp :=
  { app with storage := some (tasksToJS app.tasks) }

/-- Outcome of evaluating JSON.parse(localStorage.getItem("todoTasks"))
on line 3. absent: the key is missing, getItem returns null and
JSON.parse coerces it to the string "null", which parses to the null
value. malformed: the stored string is not valid JSON, so JSON.parse
throws a SyntaxError. value v: the stored string parses to v. -/
inductive StoredParse where
  | absent
  | malformed
  | value (v : JSValue)

/-- Line 3 of the constructor:
this.tasks = JSON.parse(localStorage.getItem("todoTasks")) || [];
A thrown SyntaxError propagates to the caller (Except.error); otherwise
the || falls back to [] exactly when the parsed value is falsy. The
result is whatever JSValue ends up assigned to this.tasks - the code
performs no shape validation. -/
def constructorTasks : StoredParse → Except Unit JSValue
  | .absent => .ok (jsOr .null (.arr []))
  | .malformed => .error ()
  | .value v => .ok (jsOr v (.arr []))

/-- Executable model of the platform String.prototype.trim used on
line 42: strip leading and trailing whitespace, leaving the interior
untouched. -/
def jsTrim (s : String) : String :=
  String.mk (((s.data.dropWhile Char.isWhitespace).reverse.dropWhile
    Char.isWhitespace).reverse)

/-- addTask (lines 41-66). inputValue is this.taskInput.value, nowId is
Date.now().toString() and nowTime the formatted locale time, both
environment inputs. Empty trimmed text: return early (only refocuses
the input). Otherwise build the task, unshift it, and persist. -/
def addTask (app : TodoApp) (inputValue nowId nowTime : String) : TodoApp :=
  let taskText := jsTrim inputValue
  if taskText = "" then app
  else
    let newTask : Task :=
      { id := nowId, text := taskText, completed := false, createdAt := nowTime }
    saveToLocalStorage { app with tasks := newTask :: app.tasks }

/-- The in-place flip performed by toggleTask: this.tasks.find returns
the first task whose id matches, and its completed flag is negated;
tasks after the first match are untouched. -/
def toggleFirst (taskId : String) : List Task → List Task
  | [] => []
  | t :: ts =>
    if t.id = taskId then { t with completed := !t.completed } :: ts
    else t :: toggleFirst taskId ts

/-- toggleTask (lines 68-75): find the first task by id; if found, flip
its completed flag and persist; if not found, do nothing at all. -/
def toggleTask (app : TodoApp) (taskId : String) : TodoApp :=
  match app.tasks.find? (fun t => t.id = taskId) with
  | some _ => saveToLocalStorage { app with tasks := toggleFirst taskId app.tasks }
  | none => app

/-- deleteTask (lines 77-81): keep every task whose id differs from
taskId (this removes all matches, not only the first), then persist. -/
def deleteTask (app : TodoApp) (taskId : String) : TodoApp :=
  saveToLocalStorage { app with tasks := app.tasks.filter (fun t => t.id ≠ taskId) }

/-- The clear-completed keyboard handler (lines 161-168): keep the
tasks that are not completed, then persist. -/
def clearCompleted (app : TodoApp) : TodoApp :=
  saveToLocalStorage { app with tasks := app.tasks.filter (fun t => !t.completed) }

/-- The filter-button handler (line 34): this.currentFilter is set to
the clicked button's data-filter string; the tasks list and the
persisted blob are untouched. -/
def setFilter (app : TodoApp) (f : String) : TodoApp :=
  { app with currentFilter := f }

/-- getFilteredTasks (lines 83-92): switch on this.currentFilter;
"active" keeps the not-completed tasks, "completed" the completed
ones, and any other value falls to the default case, the whole list. -/
def getFilteredTasks (app : TodoApp) : List Task :=
  match app.currentFilter with
  | "active" => app.tasks.filter (fun t => !t.completed)
  | "completed" => app.tasks.filter (fun t => t.completed)
  | _ => app.tasks

/-- The total count displayed by updateStats (line 95): the length of
the unfiltered list. -/
def totalCount (app : TodoApp) : Nat :=
  app.tasks.length

/-- The completed count displayed by updateStats (line 96): how many
tasks of the unfiltered list are completed. -/
def completedCount (app : TodoApp) : Nat :=
  (app.tasks.filter (fun t => t.completed)).length

/-- Reading a parsed JS object back as a Task, the bridge between a
JSValue produced by JSON.parse and the Task record: succeeds when the
four fields are present with the expected primitive types. -/
def jsToTask : JSValue → Option Task
  | .obj fields =>
    match fields.lookup "id", fields.lookup "text",
          fields.lookup "completed", fields.lookup "createdAt" with
    | some (.str i), some (.str x), some (.bool c), some (.str a) =>
      some { id := i, text := x, completed := c, createdAt := a }
    | _, _, _, _ => none
  | _ => none

/-- Reading back each element of a parsed JS array as a Task; none as
soon as one element is not task-shaped. -/
def jsToTaskList : List JSValue → Option (List Task)
  | [] => some []
  | v :: vs =>
    match jsToTask v, jsToTaskList vs with
    | some t, some ts => some (t :: ts)
    | _, _ => none

/-- Reading a parsed JS array back as a task list. -/
def jsToTasks : JSValue → Option (List Task)
  | .arr vs => jsToTaskList vs
  | _ => none

/-- All ids in the list are pairwise distinct. -/
def distinctIds (ts : List Task) : Prop :=
  (ts.map Task.id).Nodup

instance (ts : List Task) : Decidable (distinctIds ts) :=
  inferInstanceAs (Decidable ((ts.map Task.id).Nodup))

/-- The state of a fresh store created over an empty storage slot. -/
def initialApp : TodoApp :=
  { tasks := [], currentFilter := "all", storage := none }

/-- A concrete completed task used to instantiate theorems. -/
def taskB : Task :=
  { id := "2", text := "b", completed := true, createdAt := "t" }

/-- A concrete active task used to instantiate theorems. -/
def taskA : Task :=
  { id := "1", text := "a", completed := false, createdAt := "t" }

/-- A second concrete active task sharing the id of taskA, used to
instantiate the duplicate-id theorems. -/
def taskDup : Task :=
  { id := "1", text := "b", completed := false, createdAt := "t" }

/-- A concrete store with one completed and one active task, used to
instantiate universally quantified theorems. -/
def sampleApp : TodoApp :=
  { tasks := [taskB, taskA], currentFilter := "all", storage := none }

/-- A concrete store holding two tasks that share the id "1", used to
instantiate the duplicate-id theorems. -/
def dupApp : TodoApp :=
  { tasks := [taskA, taskDup], currentFilter := "all", storage := none }

/-! ## Helper lemmas -/

/-- Flipping the first matching completed flag never changes any id. -/
theorem toggleFirst_map_id (taskId : String) (ts : List Task) :
    (toggleFirst taskId ts).map Task.id = ts.map Task.id := by
  induction ts with
  | nil => rfl
  | cons t ts ih =>
    by_cases h : t.id = taskId <;> simp [toggleFirst, h, ih]

/-- Flipping the first matching completed flag never changes any text. -/
theorem toggleFirst_map_text (taskId : String) (ts : List Task) :
    (toggleFirst taskId ts).map Task.text = ts.map Task.text := by
  induction ts with
  | nil => rfl
  | cons t ts ih =>
    by_cases h : t.id = taskId <;> simp [toggleFirst, h, ih]

/-- When nothing matches, the flip is the identity. -/
theorem toggleFirst_eq_self (taskId : String) (ts : List Task)
    (h : ∀ t ∈ ts, t.id ≠ taskId) :
    toggleFirst taskId ts = ts := by
  induction ts with
  | nil => rfl
  | cons t ts ih =>
    have ht : t.id ≠ taskId := h t (by simp)
    simp [toggleFirst, ht, ih fun u hu => h u (by simp [hu])]

/-- The flip lands exactly on the first task whose id matches. -/
theorem toggleFirst_append (taskId : String) (pre post : List Task) (t : Task)
    (hpre : ∀ u ∈ pre, u.id ≠ taskId) (ht : t.id = taskId) :
    toggleFirst taskId (pre ++ t :: post)
      = pre ++ { t with completed := !t.completed } :: post := by
  induction pre with
  | nil => simp [toggleFirst, ht]
  | cons u us ih =>
    have hu : u.id ≠ taskId := hpre u (by simp)
    simp [toggleFirst, hu, ih fun v hv => hpre v (by simp [hv])]

/-- The startup read for every possible falsy parsed value. -/
theorem constructorTasks_falsy (v : JSValue) (hv : truthy v = false) :
    constructorTasks (.value v) = .ok (.arr []) := by
  simp [constructorTasks, jsOr, hv]

/-- The startup read for every possible truthy parsed value. -/
theorem constructorTasks_truthy (v : JSValue) (hv : truthy v = true) :
    constructorTasks (.value v) = .ok v := by
  simp [constructorTasks, jsOr, hv]

/-- Serializing a single task and reading it back is the identity. -/
theorem jsToTask_taskToJS (t : Task) : jsToTask (taskToJS t) = some t := rfl

/-- Serializing the whole list and reading it back is the identity. -/
theorem jsToTasks_tasksToJS (ts : List Task) :
    jsToTasks (tasksToJS ts) = some ts := by
  induction ts with
  | nil => rfl
  | cons t ts ih =>
    simp only [tasksToJS, jsToTasks, List.map_cons, jsToTaskList,
      jsToTask_taskToJS] at *
    simp [ih]

/-! ## Claim theorems -/

/-- C1 counterexample. The claim says a stored blob that is malformed
JSON, or JSON that is not an array of task objects, still initializes
the store with an empty list and never raises. On the code, line 3
lets the SyntaxError of JSON.parse propagate to the caller, and a
truthy non-array parse result (here the empty object) is assigned to
this.tasks as-is instead of the empty list. -/
theorem C1_counterexample :
    constructorTasks .malformed = Except.error () ∧
    constructorTasks (.value (.obj [])) = Except.ok (.obj []) :=
  ⟨rfl, rfl⟩

/-- C1 (amended): at startup, an absent key, or a stored value that
parses to a falsy JS value, initializes the store with the empty list
and raises no error; but a malformed stored string raises the parse
error to the caller, and a truthy parsed value - array-shaped or not -
is taken as the task list unchanged. -/
theorem C1_startup_read :
    constructorTasks .absent = .ok (.arr []) ∧
    (∀ v, truthy v = false → constructorTasks (.value v) = .ok (.arr [])) ∧
    (∀ v, truthy v = true → constructorTasks (.value v) = .ok v) ∧
    constructorTasks .malformed = .error () :=
  ⟨rfl, constructorTasks_falsy, constructorTasks_truthy, rfl⟩

/-- Witness for C1_startup_read at the concrete parsed values null and
the empty array. -/
theorem C1_startup_read_witness :
    constructorTasks (.value .null) = .ok (.arr []) ∧
    constructorTasks (.value (.arr [])) = .ok (.arr []) :=
  ⟨C1_startup_read.2.1 .null rfl, C1_startup_read.2.2.1 (.arr []) rfl⟩

/-- C2 counterexample. Two addTask calls in the same millisecond read
the same Date.now() value and hence assign the same id: starting from
the empty store (all ids distinct), adding "a" and then "b" with the
same timestamp 100 yields two tasks both with id "100". -/
theorem C2_counterexample :
    distinctIds (addTask initialApp "a" "100" "09:00").tasks ∧
    ¬ distinctIds
      (addTask (addTask initialApp "a" "100" "09:00") "b" "100" "09:00").tasks := by
  constructor <;> decide

/-- C2 (amended): from a state with pairwise distinct ids, toggleTask,
deleteTask, clearCompleted and setFilter always preserve distinctness,
and addTask preserves it provided the fresh Date.now-based id differs
from every id already in the list - which the code does not guarantee
for two calls within the same millisecond. -/
theorem C2_id_uniqueness (app : TodoApp) (h : distinctIds app.tasks) :
    (∀ input nowId nowTime, nowId ∉ app.tasks.map Task.id →
      distinctIds (addTask app input nowId nowTime).tasks) ∧
    (∀ taskId, distinctIds (toggleTask app taskId).tasks) ∧
    (∀ taskId, distinctIds (deleteTask app taskId).tasks) ∧
    distinctIds (clearCompleted app).tasks ∧
    (∀ f, distinctIds (setFilter app f).tasks) := by
  refine ⟨?_, ?_, ?_, ?_, ?_⟩
  · intro input nowId nowTime hfresh
    by_cases he : jsTrim input = ""
    · simpa [addTask, he] using h
    · have hmap : (addTask app input nowId nowTime).tasks.map Task.id
          = nowId :: app.tasks.map Task.id := by
        simp [addTask, he, saveToLocalStorage]
      unfold distinctIds
      rw [hmap]
      exact List.nodup_cons.mpr ⟨hfresh, h⟩
  · intro taskId
    unfold toggleTask
    cases app.tasks.find? (fun t => t.id = taskId) with
    | none => exact h
    | some _ =>
      simpa [saveToLocalStorage, distinctIds, toggleFirst_map_id] using h
  · intro taskId
    exact ((List.filter_sublist _).map Task.id).nodup h
  · exact ((List.filter_sublist _).map Task.id).nodup h
  · intro f
    exact h

/-- Witness for C2_id_uniqueness at the empty store. -/
theorem C2_id_uniqueness_witness :
    distinctIds (addTask initialApp "x" "5" "09:00").tasks ∧
    distinctIds (toggleTask initialApp "5").tasks := by
  have h := C2_id_uniqueness initialApp (by decide)
  exact ⟨h.1 "x" "5" "09:00" (by decide), h.2.1 "5"⟩

/-- C3: for every input whose trimmed form is non-empty, addTask grows
the unfiltered total by exactly one and the new list is the new task -
with completed = false - prepended to the previous list, so the old
tasks keep their relative order. -/
theorem C3_addTask_prepends (app : TodoApp) (text nowId nowTime : String)
    (h : jsTrim text ≠ "") :
    totalCount (addTask app text nowId nowTime) = totalCount app + 1 ∧
    (addTask app text nowId nowTime).tasks =
      { id := nowId, text := jsTrim text, completed := false,
        createdAt := nowTime } :: app.tasks := by
  constructor <;> simp [addTask, totalCount, saveToLocalStorage, h]

/-- Witness for C3_addTask_prepends at the empty store and input "a". -/
theorem C3_addTask_prepends_witness :
    totalCount (addTask initialApp "a" "1" "09:00") = totalCount initialApp + 1 ∧
    (addTask initialApp "a" "1" "09:00").tasks =
      { id := "1", text := jsTrim "a", completed := false,
        createdAt := "09:00" } :: initialApp.tasks :=
  C3_addTask_prepends initialApp "a" "1" "09:00" (by decide)

/-- C4 counterexample. The claim says the created text field equals the
input exactly, with no trimming. On the code, line 42 trims the input
before storing: adding the input " a " (non-empty once trimmed) stores
the text "a", which differs from " a ". -/
theorem C4_counterexample :
    jsTrim " a " ≠ "" ∧
    (addTask initialApp " a " "1" "09:00").tasks.map Task.text = ["a"] ∧
    "a" ≠ " a " := by
  refine ⟨by decide, by decide, by decide⟩

/-- C4 (amended): the stored text is the trimmed input - hence equals
the input exactly whenever the input has no leading or trailing
whitespace - and once stored no operation rewrites it: toggleTask
keeps every text, deleteTask and clearCompleted only remove whole
tasks (each survivor is a member of the original list, unchanged), and
setFilter leaves the list untouched. -/
theorem C4_text_stored_trimmed (app : TodoApp) (text nowId nowTime : String)
    (h : jsTrim text ≠ "") :
    ((addTask app text nowId nowTime).tasks.map Task.text
      = jsTrim text :: app.tasks.map Task.text) ∧
    (∀ taskId, (toggleTask app taskId).tasks.map Task.text
      = app.tasks.map Task.text) ∧
    (∀ taskId, ∀ u ∈ (deleteTask app taskId).tasks, u ∈ app.tasks) ∧
    (∀ u ∈ (clearCompleted app).tasks, u ∈ app.tasks) ∧
    (∀ f, (setFilter app f).tasks = app.tasks) := by
  refine ⟨?_, ?_, ?_, ?_, fun f => rfl⟩
  · simp [addTask, h, saveToLocalStorage]
  · intro taskId
    unfold toggleTask
    cases app.tasks.find? (fun t => t.id = taskId) with
    | none => rfl
    | some _ => simp [saveToLocalStorage, toggleFirst_map_text]
  · intro taskId u hu
    exact ((List.filter_sublist _).subset) hu
  · intro u hu
    exact ((List.filter_sublist _).subset) hu

/-- Witness for C4_text_stored_trimmed at the empty store and
input " b ". -/
theorem C4_text_stored_trimmed_witness :
    (addTask initialApp " b " "1" "09:00").tasks.map Task.text
      = jsTrim " b " :: initialApp.tasks.map Task.text :=
  (C4_text_stored_trimmed initialApp " b " "1" "09:00" (by decide)).1

/-- C5: for each of the three filters, every task of the filtered view
satisfies the filter predicate; each filtered view is an
order-preserving subsequence (List.Sublist) of the unfiltered list;
and the active and completed views are disjoint with membership union
equal to the all view. -/
theorem C5_filter_correctness (app : TodoApp) :
    (∀ t ∈ getFilteredTasks (setFilter app "active"), t.completed = false) ∧
    (∀ t ∈ getFilteredTasks (setFilter app "completed"), t.completed = true) ∧
    List.Sublist (getFilteredTasks (setFilter app "active")) app.tasks ∧
    List.Sublist (getFilteredTasks (setFilter app "completed")) app.tasks ∧
    getFilteredTasks (setFilter app "all") = app.tasks ∧
    (∀ t, t ∈ getFilteredTasks (setFilter app "all") ↔
      (t ∈ getFilteredTasks (setFilter app "active") ∨
       t ∈ getFilteredTasks (setFilter app "completed"))) ∧
    (∀ t, ¬ (t ∈ getFilteredTasks (setFilter app "active") ∧
       t ∈ getFilteredTasks (setFilter app "completed"))) := by
  refine ⟨?_, ?_, ?_, ?_, ?_, ?_, ?_⟩
  · intro t ht
    simpa using (List.mem_filter.mp ht).2
  · intro t ht
    simpa using (List.mem_filter.mp ht).2
  · exact List.filter_sublist _
  · exact List.filter_sublist _
  · rfl
  · intro t
    constructor
    · intro ht
      by_cases hc : t.completed
      · exact Or.inr (List.mem_filter.mpr ⟨ht, by simpa using hc⟩)
      · exact Or.inl (List.mem_filter.mpr ⟨ht, by simpa using hc⟩)
    · rintro (ht | ht) <;> exact (List.filter_sublist _).subset ht
  · rintro t ⟨ha, hc⟩
    have h1 : t.completed = false := by simpa using (List.mem_filter.mp ha).2
    have h2 : t.completed = true := by simpa using (List.mem_filter.mp hc).2
    simp [h1] at h2

/-- Witness for C5_filter_correctness at a concrete two-task store:
taskA belongs to the active view of sampleApp, so the theorem yields
that its completed flag is false. -/
theorem C5_filter_correctness_witness :
    taskA.completed = false :=
  (C5_filter_correctness sampleApp).1 taskA (by decide)

/-- C6: the displayed counts are computed over the unfiltered list and
do not depend on the active filter: under every filter string f, total
is the length of the whole list and completed counts the completed
tasks of the whole list. -/
theorem C6_counts_filter_independent (app : TodoApp) (f : String) :
    totalCount (setFilter app f) = app.tasks.length ∧
    completedCount (setFilter app f)
      = (app.tasks.filter (fun t => t.completed)).length ∧
    totalCount (setFilter app f) = totalCount app ∧
    completedCount (setFilter app f) = completedCount app :=
  ⟨rfl, rfl, rfl, rfl⟩

/-- C7: persistence round-trip. After a save, the stored blob holds a
value that the startup read of a fresh store accepts unchanged (it is
a truthy array, so line 3 keeps it), and reading its elements back as
tasks yields exactly the original list: same length, order and
fields. -/
theorem C7_persistence_roundtrip (app : TodoApp) :
    ∃ v, (saveToLocalStorage app).storage = some v ∧
      constructorTasks (.value v) = .ok v ∧
      jsToTasks v = some app.tasks :=
  ⟨tasksToJS app.tasks, rfl, rfl, jsToTasks_tasksToJS app.tasks⟩

/-- C8: for every input whose trimmed form is empty, addTask returns
the state unchanged - same task list, same counts, same persisted
blob (the early return on line 46 precedes the save). -/
theorem C8_empty_trim_noop (app : TodoApp) (text nowId nowTime : String)
    (h : jsTrim text = "") :
    addTask app text nowId nowTime = app := by
  simp [addTask, h]

/-- Witness for C8_empty_trim_noop at the whitespace input. -/
theorem C8_empty_trim_noop_witness :
    addTask initialApp "   " "1" "09:00" = initialApp :=
  C8_empty_trim_noop initialApp "   " "1" "09:00" (by decide)

/-- C9: for an id matching no task, toggleTask is a complete no-op (it
does not even persist) and deleteTask leaves the task list unchanged in
length, order and fields; neither raises an error (both are total). -/
theorem C9_unknown_id_noop (app : TodoApp) (taskId : String)
    (h : ∀ t ∈ app.tasks, t.id ≠ taskId) :
    toggleTask app taskId = app ∧
    (deleteTask app taskId).tasks = app.tasks := by
  constructor
  · unfold toggleTask
    have hnone : app.tasks.find? (fun t => t.id = taskId) = none := by
      rw [List.find?_eq_none]
      intro t ht
      simpa using h t ht
    rw [hnone]
  · simp only [deleteTask, saveToLocalStorage]
    exact List.filter_eq_self.mpr fun t ht => by simpa using h t ht

/-- Witness for C9_unknown_id_noop at the two-task store and the
unknown id "9". -/
theorem C9_unknown_id_noop_witness :
    toggleTask sampleApp "9" = sampleApp ∧
    (deleteTask sampleApp "9").tasks = sampleApp.tasks :=
  C9_unknown_id_noop sampleApp "9" (by decide)

/-- C10: with duplicate ids in the list, toggleTask flips the completed
flag of only the first matching task, leaving every other task - the
later duplicates included - unchanged, while deleteTask removes every
task whose id matches: a task remains in the list exactly when it was
there before and its id differs. -/
theorem C10_duplicate_ids (app : TodoApp) (taskId : String)
    (pre post : List Task) (t : Task)
    (hpre : ∀ u ∈ pre, u.id ≠ taskId) (ht : t.id = taskId)
    (happ : app.tasks = pre ++ t :: post) :
    (toggleTask app taskId).tasks
      = pre ++ { t with completed := !t.completed } :: post ∧
    (∀ u, u ∈ (deleteTask app taskId).tasks ↔
      (u ∈ app.tasks ∧ u.id ≠ taskId)) := by
  constructor
  · unfold toggleTask
    have hsome : (app.tasks.find? (fun t => t.id = taskId)).isSome := by
      rw [List.find?_isSome]
      exact ⟨t, by simp [happ], by simp [ht]⟩
    cases hfind : app.tasks.find? (fun t => t.id = taskId) with
    | none => simp [hfind] at hsome
    | some u =>
      simp only [saveToLocalStorage, happ]
      exact toggleFirst_append taskId pre post t hpre ht
  · intro u
    simp only [deleteTask, saveToLocalStorage, List.mem_filter,
      decide_not, Bool.not_eq_true', decide_eq_false_iff_not]

/-- Witness for C10_duplicate_ids at the store holding two tasks with
the shared id "1": the first is flipped, the second survives toggling
untouched, and the second is removed by deleteTask. -/
theorem C10_duplicate_ids_witness :
    (toggleTask dupApp "1").tasks
      = [] ++ { taskA with completed := !taskA.completed } :: [taskDup] ∧
    (taskDup ∈ (deleteTask dupApp "1").tasks ↔
      (taskDup ∈ dupApp.tasks ∧ taskDup.id ≠ "1")) := by
  have h := C10_duplicate_ids dupApp "1" [] [taskDup] taskA (by simp) rfl rfl
  exact ⟨h.1, h.2 taskDup⟩

end SimpleApp
